import Mathlib

/-!
Shallow embedding of the xquizit screening-interview backend
(src/backend/interview_graph.py, src/backend/main.py, src/backend/models.py).

Python strings are modelled as lists of characters (`Str`), time instants and
durations as integer seconds, and the Gemini model as an oracle `LLM` that may
fail, matching the synchronous fallible model-call boundary.  A Python access
`msg.get("topic", "")` can observe three shapes of the `"topic"` entry of a
message dict (key missing, present as `None`, present as a string); these are
modelled by `TopicTag`.  `topic_followup_counts` is modelled as a total
function with default value 0, matching `dict.get(key, 0)` on a dict whose
missing keys read as 0.  All state keys of `InterviewState` are always present
in every state the code builds, so `state.get(key, default)` is modelled as
plain field access (the defaults are unreachable).  The duck-typed LangChain
message branch of the source collapses: every message in the modelled flows is
a plain dict.
-/

namespace XQuizit

/-- Python `str` as a list of characters. -/
abbrev Str := List Char

/-- Shorthand turning a Lean string literal into a `Str`. -/
def str (s : String) : Str := s.data

/-- `leadsWith n h`: `h` starts with `n` (used to model Python prefix tests
and the substring test `in`). -/
def leadsWith : Str → Str → Bool
  | [], _ => true
  | _ :: _, [] => false
  | a :: as, b :: bs => a == b && leadsWith as bs

/-- Python `needle in hay` on strings: some suffix of `hay` starts with `needle`. -/
def hasToken (needle : Str) : Str → Bool
  | [] => leadsWith needle []
  | c :: rest => leadsWith needle (c :: rest) || hasToken needle rest

/-- Specification-side reading of "the token occurs in the text": `needle`
appears contiguously inside `hay`. -/
def occursIn (needle hay : Str) : Prop := ∃ p q, hay = p ++ needle ++ q

/-- Python `str.lower` (ASCII case fold, which is all the code exercises). -/
def pyLower (s : Str) : Str := s.map Char.toLower

/-- Python `str.strip()` with no arguments: drop leading and trailing whitespace. -/
def pyStrip (s : Str) : Str :=
  ((s.dropWhile Char.isWhitespace).reverse.dropWhile Char.isWhitespace).reverse

/-- Python `str.lstrip(chars)`: drop leading characters drawn from `chars`. -/
def pyLstrip (chars : Str) (s : Str) : Str := s.dropWhile (fun c => chars.contains c)

/-- Python `str.split("\n")`. -/
def splitLines : Str → List Str
  | [] => [[]]
  | c :: rest =>
    let r := splitLines rest
    if c = '\n' then [] :: r
    else (c :: r.headD []) :: r.tail

/-- Python `sep.join(xs)`. -/
def joinWith (sep : Str) : List Str → Str
  | [] => []
  | [x] => x
  | x :: y :: rest => x ++ sep ++ joinWith sep (y :: rest)

/-- Decimal rendering of a natural number, as Python f-string interpolation does. -/
def natStr (n : Nat) : Str := (toString n).data

/-- How the `"topic"` entry of a message dict looks to `msg.get("topic", "")`. -/
inductive TopicTag
  | absent
  | pynone
  | label (t : Str)
deriving DecidableEq

/-- The value `msg.get("topic", "")` yields: `none` models Python `None`,
`some` models a string (a missing key reads as the empty string). -/
def topicValOf : TopicTag → Option Str
  | .absent => some []
  | .pynone => none
  | .label t => some t

/-- The tag written by `{"topic": current_topic}` when `current_topic` is an
optional string. -/
def tagOfTopic : Option Str → TopicTag
  | none => .pynone
  | some t => .label t

/-- A message dict of the LangGraph state: `{"role": …, "content": …}` plus
the optional `"topic"` entry. -/
structure Msg where
  role : Str
  content : Str
  tag : TopicTag
deriving DecidableEq

/-- models.Message, the stored conversation history entry (its creation
timestamp is observed by no code path modelled here and is omitted). -/
structure Message where
  role : Str
  content : Str
deriving DecidableEq

/-- models.InterviewState, the LangGraph state schema. -/
structure InterviewState where
  session_id : Str
  resume_text : Str
  job_description_text : Str
  messages : List Msg
  interview_strategy : Str
  key_topics : List Str
  questions_asked : Nat
  current_question : Option Str
  current_topic : Option Str
  needs_followup : Bool
  topic_followup_counts : Option Str → Nat
  start_time : ℤ
  time_elapsed : ℤ
  is_concluded : Bool
  conclusion_reason : Option Str

/-- models.SessionData, the per-session stored state. -/
structure SessionData where
  session_id : Str
  resume_text : Str
  job_description_text : Str
  conversation_history : List Message
  interview_strategy : Option Str
  key_topics : List Str
  questions_asked : Nat
  topic_followup_counts : Option Str → Nat
  start_time : Option ℤ
  is_active : Bool
  is_concluded : Bool
  conclusion_reason : Option Str

/-- The model capability `generate(system, user)`; it may fail with a
transport/error condition. -/
abbrev LLM := Str → Str → Except Str Str

/-- An oracle whose every call succeeds. -/
def llmOf (g : Str → Str → Str) : LLM := fun sys usr => Except.ok (g sys usr)

/-- interview_graph.MAX_INTERVIEW_TIME_SECONDS = 30 * 60. -/
def MAX_INTERVIEW_TIME_SECONDS : ℤ := 30 * 60

/-- interview_graph.MAX_QUESTIONS = 16. -/
def MAX_QUESTIONS : Nat := 16

/-- The fixed default topic list of `_extract_topics`. -/
def defaultTopics : List Str :=
  [str "Technical skills", str "Experience and background", str "Problem-solving approach"]

/-- The enumeration prefixes `['1.', '2.', '3.', '4.', '5.', '-', '*']`. -/
def topicLinePrefixes : List Str :=
  [str "1.", str "2.", str "3.", str "4.", str "5.", str "-", str "*"]

/-- `line.lstrip('0123456789.-* ').strip()` applied to a stripped line. -/
def cleanTopic (l : Str) : Str := pyStrip (pyLstrip (str "0123456789.-* ") l)

/-- One iteration of the topic-collection loop of `_extract_topics`. -/
def topicStep (topics : List Str) (line : Str) : List Str :=
  let l := pyStrip line
  if topicLinePrefixes.any (fun p => leadsWith p l) then
    let topic := cleanTopic l
    if topic.length > 10 ∧ topics.length < 5 then topics ++ [topic] else topics
  else topics

/-- interview_graph._extract_topics: scan the strategy text line by line. -/
def extractTopics (strategy : Str) : List Str :=
  let topics := (splitLines strategy).foldl topicStep []
  if topics = [] then defaultTopics else topics

/-- Render one turn for the full-history context; `none` for skipped roles. -/
def renderLine (m : Msg) : Option Str :=
  if m.role = str "assistant" then some (str "Interviewer: " ++ m.content)
  else if m.role = str "user" then some (str "Candidate: " ++ m.content)
  else none

/-- interview_graph._build_conversation_context. -/
def buildConversationContext (msgs : List Msg) : Str :=
  if msgs = [] then str "This is the first question."
  else
    let context_lines := msgs.filterMap renderLine
    if context_lines = [] then str "This is the first question."
    else joinWith (str "\n") context_lines

/-- The topic-scoped context built inside the follow-up branch of
`_generate_question`: only turns whose `"topic"` entry equals
`current_topic` under Python `==` (where `"" == None` is false and
`None == None` is true). -/
def topicScopedContext (msgs : List Msg) (current_topic : Option Str) : Str :=
  let topic_conversation := msgs.filterMap (fun m =>
    if topicValOf m.tag = current_topic ∧ (m.role = str "assistant" ∨ m.role = str "user") then
      some ((if m.role = str "assistant" then str "Interviewer: " else str "Candidate: ")
        ++ m.content)
    else none)
  if topic_conversation = [] then str "First question on this topic"
  else joinWith (str "\n") topic_conversation

/-- Python f-string rendering of an optional string (`None` prints as "None"). -/
def optStr : Option Str → Str
  | none => str "None"
  | some s => s

/-- The system prompt of `_analyze_documents` (a triple-quoted literal; its
embedded indentation is kept). -/
def analyzeSystemPrompt : Str :=
  str "You are an expert technical interviewer. Analyze the candidate's resume and the job description.\n\n        Your task:\n        1. Identify key skills and experiences in the resume that match the job requirements\n        2. Identify potential gaps or areas to explore\n        3. Create a focused interview strategy with 3-5 key topics to cover\n        4. Prioritize topics that will best assess the candidate's fit for the role\n\n        Provide a clear, structured analysis."

/-- The user prompt of `_analyze_documents`. -/
def analyzeUserPrompt (resume jd : Str) : Str :=
  str "Resume:\n" ++ resume ++ str "\n\nJob Description:\n" ++ jd
    ++ str "\n\nBased on the above, provide:\n1. Key matching qualifications\n2. Areas to explore in depth\n3. 3-5 specific topics for interview questions"

/-- The system prompt of the follow-up branch of `_generate_question`. -/
def followupSystemPrompt (current_topic : Option Str) : Str :=
  str "You are conducting a professional screening interview.\n\nCurrent Topic: "
    ++ optStr current_topic
    ++ str "\n\nGenerate ONE focused follow-up question that:\n1. Digs deeper into their most recent answer on THIS topic\n2. Asks for specific examples, details, or clarification\n3. Explores impact, challenges, or results\n4. Stays strictly on topic: "
    ++ optStr current_topic
    ++ str "\n5. Is conversational and natural\n\nJust provide the question, no commentary."

/-- The user prompt of the follow-up branch of `_generate_question`. -/
def followupUserPrompt (followup_count : Nat) (topic_context : Str) : Str :=
  str "Conversation on THIS topic so far (Follow-up #" ++ natStr (followup_count + 1)
    ++ str " of max 2):\n" ++ topic_context
    ++ str "\n\nGenerate a follow-up question based on the conversation above."

/-- The system prompt of the introductory branch of `_generate_question`. -/
def introSystemPrompt : Str :=
  str "You are starting a professional screening interview.\n\nGenerate a warm, welcoming introductory question that:\n1. Invites the candidate to introduce themselves\n2. Sets a conversational, friendly tone\n3. Allows them to share relevant background and experience\n4. Is professional but not intimidating\n\nExamples of good introductory questions:\n- \"Thanks for joining us today! To start, could you tell me a bit about yourself and what drew you to this position?\"\n- \"Welcome! I'd love to hear about your background and what excites you about this role.\"\n- \"Let's begin - can you walk me through your professional journey and what brings you here today?\"\n\nGenerate ONE similar introductory question. Just provide the question itself, no additional commentary."

/-- The user prompt of the introductory branch of `_generate_question`. -/
def introUserPrompt : Str :=
  str "Please generate a welcoming introductory interview question."

/-- The system prompt of the topic branch of `_generate_question`. -/
def topicSystemPrompt (strategy : Str) (covered : List Str) (current_topic : Str)
    (remaining : List Str) : Str :=
  str "You are conducting a professional screening interview.\n\nInterview Strategy:\n"
    ++ strategy
    ++ str "\n\nTopic Progress:\n- Topics already explored: "
    ++ (if covered = [] then str "None yet" else joinWith (str ", ") covered)
    ++ str "\n- CURRENT FOCUS: " ++ current_topic
    ++ str "\n- Topics remaining: "
    ++ (if remaining = [] then str "None (revisiting covered topics)"
        else joinWith (str ", ") remaining)
    ++ str "\n\nGenerate ONE clear, focused interview question that:\n1. Focuses on: "
    ++ current_topic
    ++ str "\n2. Allows the candidate to demonstrate their skills and experience\n3. Is conversational and professional\n4. Builds naturally on the conversation so far\n\nJust provide the question itself, no additional commentary."

/-- The user prompt of the topic branch of `_generate_question`. -/
def topicUserPrompt (current_topic : Str) (conversation_context : Str) : Str :=
  str "Based on the conversation so far, generate the next interview question focusing on: "
    ++ current_topic ++ str "\n\nPrevious conversation:\n" ++ conversation_context

/-- The system prompt of `_process_answer` (triple-quoted literal, indentation kept). -/
def processSystemPrompt : Str :=
  str "You are evaluating a candidate's interview answer.\n\n        Analyze the answer and determine:\n        1. Is the answer complete and substantive?\n        2. Does it demonstrate relevant experience?\n        3. Would a follow-up question add significant value?\n\n        Respond with ONLY 'yes' if a follow-up would be valuable, or 'no' if the answer is sufficient."

/-- The user prompt of `_process_answer`. -/
def processUserPrompt (current_question : Option Str) (candidate_answer : Str) : Str :=
  str "Question: " ++ optStr current_question ++ str "\n\nCandidate's Answer: "
    ++ candidate_answer ++ str "\n\nShould we ask a follow-up question? (yes/no)"

/-- The three conclusion message templates of `_conclude_interview`. -/
def timeLimitMessage (questions_asked : Nat) : Str :=
  str "Thank you for your time! We've reached the 30-minute mark for this screening interview. We covered "
    ++ natStr questions_asked
    ++ str " areas, and I appreciate your detailed responses. We'll be in touch soon regarding next steps."

/-- The max-questions conclusion template of `_conclude_interview`. -/
def maxQuestionsMessage (questions_asked : Nat) : Str :=
  str "Thank you so much for your thoughtful answers! We've covered "
    ++ natStr questions_asked
    ++ str " important topics today. I have all the information I need for this screening round. We'll review your responses and get back to you soon about next steps."

/-- The fallback conclusion template of `_conclude_interview`. -/
def completedMessage : Str :=
  str "Thank you for taking the time to interview with us today. We appreciate your interest in the position and will be in touch regarding next steps."

/-- interview_graph._analyze_documents: one model call producing the strategy;
topics are extracted deterministically and the strategy appended as a
system-role turn (via the `add_messages` reducer). -/
def analyzeDocuments (llm : LLM) (s : InterviewState) : Except Str InterviewState :=
  match llm analyzeSystemPrompt (analyzeUserPrompt s.resume_text s.job_description_text) with
  | .error e => .error e
  | .ok strategy =>
    .ok { s with
      interview_strategy := strategy,
      key_topics := extractTopics strategy,
      messages := s.messages ++ [{ role := str "system", content := strategy, tag := .absent }] }

/-- interview_graph._generate_question: follow-up branch when `needs_followup`
and the current topic's follow-up count is below 2, introductory branch when
no question was asked yet, topic branch otherwise. -/
def generateQuestion (llm : LLM) (s : InterviewState) : Except Str InterviewState :=
  let questions_asked := s.questions_asked
  let followup_count := s.topic_followup_counts s.current_topic
  if s.needs_followup = true ∧ followup_count < 2 then
    let topic_context := topicScopedContext s.messages s.current_topic
    match llm (followupSystemPrompt s.current_topic)
        (followupUserPrompt followup_count topic_context) with
    | .error e => .error e
    | .ok resp =>
      let question := pyStrip resp
      .ok { s with
        current_question := some question,
        current_topic := s.current_topic,
        questions_asked := questions_asked + 1,
        needs_followup := false,
        topic_followup_counts := fun t =>
          if t = s.current_topic then followup_count + 1 else s.topic_followup_counts t,
        messages := s.messages
          ++ [{ role := str "assistant", content := question, tag := tagOfTopic s.current_topic }] }
  else if questions_asked = 0 then
    match llm introSystemPrompt introUserPrompt with
    | .error e => .error e
    | .ok resp =>
      let question := pyStrip resp
      .ok { s with
        current_question := some question,
        current_topic := some (str "introduction"),
        questions_asked := 1,
        messages := s.messages
          ++ [{ role := str "assistant", content := question, tag := .label (str "introduction") }] }
  else
    let topics := s.key_topics
    let current_topic_idx := if topics = [] then 0 else (questions_asked - 1) % topics.length
    let current_topic :=
      if topics = [] then str "general background" else topics.getD current_topic_idx []
    let covered_topics := topics.take current_topic_idx
    let remaining_topics := topics.drop (current_topic_idx + 1)
    let conversation_context := buildConversationContext s.messages
    match llm (topicSystemPrompt s.interview_strategy covered_topics current_topic remaining_topics)
        (topicUserPrompt current_topic conversation_context) with
    | .error e => .error e
    | .ok resp =>
      let question := pyStrip resp
      .ok { s with
        current_question := some question,
        current_topic := some current_topic,
        questions_asked := questions_asked + 1,
        messages := s.messages
          ++ [{ role := str "assistant", content := question, tag := .label current_topic }] }

/-- The booleanisation of the sufficiency check:
`'yes' in response.content.lower()`. -/
def needsFollowupOf (resp : Str) : Bool := hasToken (str "yes") (pyLower resp)

/-- interview_graph._process_answer: guard branches make no model call. -/
def processAnswer (llm : LLM) (s : InterviewState) : Except Str InterviewState :=
  match s.messages.getLast? with
  | none => .ok { s with needs_followup := false }
  | some last_msg =>
    if last_msg.role = str "user" then
      match llm processSystemPrompt (processUserPrompt s.current_question last_msg.content) with
      | .error e => .error e
      | .ok resp => .ok { s with needs_followup := needsFollowupOf resp }
    else .ok { s with needs_followup := false }

/-- interview_graph._check_time: recompute the elapsed time from the stored
start instant (the `start_time` key is always present, so the
`current_time` default of the source is unreachable). -/
def checkTime (now : ℤ) (s : InterviewState) : InterviewState :=
  { s with time_elapsed := now - s.start_time }

/-- The routing values of `_should_continue_or_end` (its `Literal` type). -/
inductive GateRoute
  | wait_for_answer
  | process_answer
  | conclude
deriving DecidableEq

/-- interview_graph._should_continue_or_end: both message-inspection arms of
the source return "wait_for_answer", kept as written. -/
def shouldContinueOrEnd (s : InterviewState) : GateRoute :=
  if s.time_elapsed ≥ MAX_INTERVIEW_TIME_SECONDS then .conclude
  else if s.questions_asked ≥ MAX_QUESTIONS then .conclude
  else
    match s.messages.getLast? with
    | some last_msg => if last_msg.role = str "assistant" then .wait_for_answer else .wait_for_answer
    | none => .wait_for_answer

/-- The routing values of `_route_after_answer`. -/
inductive AnswerRoute
  | generate_question
  | conclude
deriving DecidableEq

/-- interview_graph._route_after_answer: the source assigns
`state["conclusion_reason"]` in place before routing; the assignment is kept
as the returned state (LangGraph may not propagate such an in-place write,
but `_conclude_interview` re-derives the reason either way). -/
def routeAfterAnswer (s : InterviewState) : AnswerRoute × InterviewState :=
  if s.time_elapsed ≥ MAX_INTERVIEW_TIME_SECONDS then
    (.conclude, { s with conclusion_reason := some (str "time_limit") })
  else if s.questions_asked ≥ MAX_QUESTIONS then
    (.conclude, { s with conclusion_reason := some (str "max_questions") })
  else if s.is_concluded = true then (.conclude, s)
  else (.generate_question, s)

/-- interview_graph._conclude_interview: the reason is re-derived from the
state snapshot, time gate first; `state.get("conclusion_reason", "completed")`
returns the stored value (possibly `None`) because the key is always present. -/
def concludeInterview (s : InterviewState) : InterviewState :=
  let reason : Option Str :=
    if s.time_elapsed ≥ MAX_INTERVIEW_TIME_SECONDS then some (str "time_limit")
    else if s.questions_asked ≥ MAX_QUESTIONS then some (str "max_questions")
    else s.conclusion_reason
  let conclusion_message : Str :=
    if reason = some (str "time_limit") then timeLimitMessage s.questions_asked
    else if reason = some (str "max_questions") then maxQuestionsMessage s.questions_asked
    else completedMessage
  { s with
    is_concluded := true,
    conclusion_reason := reason,
    current_question := some conclusion_message,
    messages := s.messages
      ++ [{ role := str "assistant", content := conclusion_message, tag := .absent }] }

/-- The nodes of the compiled LangGraph. -/
inductive Node
  | analyze
  | generate
  | check
  | process
  | conclude
deriving DecidableEq

/-- One run of the compiled graph from a node, with the LangGraph recursion
limit (default 25 super-steps) as fuel.  Edges follow `_build_graph`:
START → analyze_documents → generate_question → check_time →
(`_should_continue_or_end`) {END, process_answer, conclude_interview},
process_answer → (`_route_after_answer`) {generate_question,
conclude_interview}, conclude_interview → END. -/
def graphRun (llm : LLM) (now : ℤ) : Nat → Node → InterviewState → Except Str InterviewState
  | 0, _, _ => .error (str "GraphRecursionError")
  | fuel + 1, .analyze, s =>
    match analyzeDocuments llm s with
    | .error e => .error e
    | .ok s1 => graphRun llm now fuel .generate s1
  | fuel + 1, .generate, s =>
    match generateQuestion llm s with
    | .error e => .error e
    | .ok s1 => graphRun llm now fuel .check s1
  | fuel + 1, .check, s =>
    let s2 := checkTime now s
    match shouldContinueOrEnd s2 with
    | .wait_for_answer => .ok s2
    | .process_answer => graphRun llm now fuel .process s2
    | .conclude => graphRun llm now fuel .conclude s2
  | fuel + 1, .process, s =>
    match processAnswer llm s with
    | .error e => .error e
    | .ok s1 =>
      match routeAfterAnswer s1 with
      | (.generate_question, s2) => graphRun llm now fuel .generate s2
      | (.conclude, s2) => graphRun llm now fuel .conclude s2
  | _ + 1, .conclude, s => .ok (concludeInterview s)

/-- interview_graph.InterviewGraphBuilder.invoke: run the graph from START. -/
def graphInvoke (llm : LLM) (now : ℤ) (s : InterviewState) : Except Str InterviewState :=
  graphRun llm now 25 .analyze s

/-- models.StartInterviewResponse. -/
structure StartInterviewResponse where
  session_id : Str
  first_question : Str
  message : Str
deriving DecidableEq

/-- models.SubmitAnswerResponse. -/
structure SubmitAnswerResponse where
  session_id : Str
  next_question : Option Str
  is_concluded : Bool
  conclusion_message : Option Str
  time_remaining_seconds : ℤ
deriving DecidableEq

/-- The initial graph state built inside main.start_interview
(`nowT` models the `time.time()` read stored into the state). -/
def initialState (session : SessionData) (nowT : ℤ) : InterviewState :=
  { session_id := session.session_id,
    resume_text := session.resume_text,
    job_description_text := session.job_description_text,
    messages := [],
    interview_strategy := [],
    key_topics := [],
    questions_asked := 0,
    current_question := none,
    current_topic := none,
    needs_followup := false,
    topic_followup_counts := fun _ => 0,
    start_time := nowT,
    time_elapsed := 0,
    is_concluded := false,
    conclusion_reason := none }

/-- The state snapshot built inside main.submit_answer and handed to the
graph: messages are rebuilt from the stored history (with the new candidate
answer already appended) as plain role/content dicts carrying no `"topic"`
key, `current_topic` is `None` and `needs_followup` is false. -/
def submitState (session : SessionData) (history1 : List Message)
    (time_elapsed st : ℤ) : InterviewState :=
  { session_id := session.session_id,
    resume_text := session.resume_text,
    job_description_text := session.job_description_text,
    messages := history1.map (fun m => { role := m.role, content := m.content, tag := .absent }),
    interview_strategy := (session.interview_strategy).getD [],
    key_topics := session.key_topics,
    questions_asked := session.questions_asked,
    current_question := none,
    current_topic := none,
    needs_followup := false,
    topic_followup_counts := session.topic_followup_counts,
    start_time := st,
    time_elapsed := time_elapsed,
    is_concluded := false,
    conclusion_reason := none }

/-- main.start_interview.  `nowDt` models the `datetime.now()` stored into the
session, `nowT` the `time.time()` stored into the graph state, `nowG` the
clock read of `_check_time`.  The session's `start_time` is assigned before
the graph (and so the model) is invoked; on a failure the turn returns an
error (HTTP 500) with that assignment already applied, and nothing else
committed. -/
def start_interview (llm : LLM) (nowDt nowT nowG : ℤ) (session : SessionData) :
    SessionData × Except Str StartInterviewResponse :=
  if session.start_time ≠ none then
    (session, .error (str "Interview has already been started for this session"))
  else
    let session1 := { session with start_time := some nowDt }
    match graphInvoke llm nowG (initialState session nowT) with
    | .error e => (session1, .error (str "Failed to start interview: " ++ e))
    | .ok result =>
      let first_question := (result.current_question).getD []
      let session2 := { session1 with
        interview_strategy := some result.interview_strategy,
        key_topics := result.key_topics,
        questions_asked := result.questions_asked,
        conversation_history :=
          if first_question = [] then session1.conversation_history
          else session1.conversation_history
            ++ [{ role := str "assistant", content := first_question }] }
      (session2, .ok { session_id := session.session_id,
                       first_question := first_question,
                       message := str "Interview started successfully" })

/-- main.submit_answer.  `nowDt` models the `datetime.now()` read used for
`time_elapsed`, `nowG` the `time.time()` read of `_check_time`.  The
candidate's answer is appended to the stored history before the graph (and so
the model) is invoked; on a failure the turn returns an error (HTTP 500) with
that append already applied, and nothing else committed. -/
def submit_answer (llm : LLM) (nowDt nowG : ℤ) (session : SessionData) (answer : Str) :
    SessionData × Except Str SubmitAnswerResponse :=
  match session.start_time with
  | none =>
    (session, .error (str "Interview has not been started yet. Call /start-interview first."))
  | some st =>
    if session.is_concluded = true then
      (session, .error (str "Interview has already been concluded"))
    else
      let history1 := session.conversation_history ++ [{ role := str "user", content := answer }]
      let time_elapsed := nowDt - st
      let session1 := { session with conversation_history := history1 }
      match graphInvoke llm nowG (submitState session history1 time_elapsed st) with
      | .error e => (session1, .error (str "Failed to process answer: " ++ e))
      | .ok result =>
        let session2 := { session1 with
          questions_asked := result.questions_asked,
          topic_followup_counts := result.topic_followup_counts,
          is_concluded := result.is_concluded,
          conclusion_reason := result.conclusion_reason }
        let next_question := result.current_question
        let session3 :=
          match next_question with
          | some q =>
            if q = [] then session2
            else { session2 with conversation_history :=
              session2.conversation_history ++ [{ role := str "assistant", content := q }] }
          | none => session2
        let time_remaining := max 0 (30 * 60 - time_elapsed)
        (session3, .ok { session_id := session.session_id,
                         next_question := if session2.is_concluded then none else next_question,
                         is_concluded := session2.is_concluded,
                         conclusion_message := if session2.is_concluded then next_question else none,
                         time_remaining_seconds := time_remaining })

/-- One recorded SubmitAnswer call: its oracle, its two clock reads, its answer. -/
structure Call where
  llm : LLM
  nowDt : ℤ
  nowG : ℤ
  answer : Str

/-- The stored session after a sequence of SubmitAnswer calls. -/
def runSubmits : List Call → SessionData → SessionData
  | [], session => session
  | c :: cs, session => runSubmits cs (submit_answer c.llm c.nowDt c.nowG session c.answer).1

/-! ### Helper lemmas -/

lemma max_time_eq : MAX_INTERVIEW_TIME_SECONDS = 1800 := by decide

lemma max_questions_eq : MAX_QUESTIONS = 16 := rfl

lemma leadsWith_iff (n : Str) : ∀ h : Str, leadsWith n h = true ↔ ∃ q, h = n ++ q := by
  induction n with
  | nil => intro h; simp [leadsWith]
  | cons a as ih =>
    intro h
    cases h with
    | nil =>
      simp only [leadsWith, List.cons_append]
      constructor
      · intro hf; cases hf
      · rintro ⟨q, hq⟩; cases hq
    | cons b bs =>
      simp only [leadsWith, Bool.and_eq_true, beq_iff_eq, ih, List.cons_append]
      constructor
      · rintro ⟨hab, q, hq⟩
        exact ⟨q, by rw [hab, hq]⟩
      · rintro ⟨q, hq⟩
        obtain ⟨h1, h2⟩ := List.cons.inj hq
        exact ⟨h1.symm, q, h2⟩

lemma hasToken_iff (n : Str) : ∀ h : Str, hasToken n h = true ↔ occursIn n h := by
  intro h
  induction h with
  | nil =>
    simp only [hasToken, leadsWith_iff, occursIn]
    constructor
    · rintro ⟨q, hq⟩; exact ⟨[], q, by simpa using hq⟩
    · rintro ⟨p, q, hpq⟩
      obtain ⟨hpn, hq⟩ := List.append_eq_nil.mp hpq.symm
      obtain ⟨hp, hn⟩ := List.append_eq_nil.mp hpn
      exact ⟨[], by rw [hn]; rfl⟩
  | cons c rest ih =>
    simp only [hasToken, Bool.or_eq_true, leadsWith_iff, ih, occursIn]
    constructor
    · rintro (⟨q, hq⟩ | ⟨p, q, hpq⟩)
      · exact ⟨[], q, by simpa using hq⟩
      · exact ⟨c :: p, q, by simp [hpq]⟩
    · rintro ⟨p, q, hpq⟩
      cases p with
      | nil => exact Or.inl ⟨q, by simpa using hpq⟩
      | cons x xs =>
        obtain ⟨-, h2⟩ := List.cons.inj hpq
        exact Or.inr ⟨xs, q, h2⟩

lemma renderLine_ne_nil {m : Msg} {l : Str} (h : renderLine m = some l) : l ≠ [] := by
  unfold renderLine at h
  split at h
  · cases h; simp [str]
  · split at h
    · cases h; simp [str]
    · cases h

lemma joinWith_ne_nil (sep : Str) (ls : List Str) (hne : ls ≠ [])
    (h : ∀ l ∈ ls, l ≠ []) : joinWith sep ls ≠ [] := by
  match ls with
  | [] => exact absurd rfl hne
  | [x] => simpa [joinWith] using h x (by simp)
  | x :: y :: rest =>
    have hx := h x (by simp)
    intro hc
    have hc' : (x ++ sep) ++ joinWith sep (y :: rest) = [] := hc
    obtain ⟨h1, -⟩ := List.append_eq_nil.mp hc'
    obtain ⟨h2, -⟩ := List.append_eq_nil.mp h1
    exact hx h2

lemma shouldContinueOrEnd_ne_process (s : InterviewState) :
    shouldContinueOrEnd s ≠ GateRoute.process_answer := by
  unfold shouldContinueOrEnd
  split
  · simp
  · split
    · simp
    · cases s.messages.getLast? with
      | none => simp
      | some m => split <;> simp

lemma graphRun_succ_analyze (llm : LLM) (now : ℤ) (fuel : Nat) (s : InterviewState) :
    graphRun llm now (fuel + 1) .analyze s =
      match analyzeDocuments llm s with
      | .error e => .error e
      | .ok s1 => graphRun llm now fuel .generate s1 := rfl

lemma graphRun_succ_generate (llm : LLM) (now : ℤ) (fuel : Nat) (s : InterviewState) :
    graphRun llm now (fuel + 1) .generate s =
      match generateQuestion llm s with
      | .error e => .error e
      | .ok s1 => graphRun llm now fuel .check s1 := rfl

lemma graphRun_succ_check (llm : LLM) (now : ℤ) (fuel : Nat) (s : InterviewState) :
    graphRun llm now (fuel + 1) .check s =
      match shouldContinueOrEnd (checkTime now s) with
      | .wait_for_answer => .ok (checkTime now s)
      | .process_answer => graphRun llm now fuel .process (checkTime now s)
      | .conclude => graphRun llm now fuel .conclude (checkTime now s) := rfl

lemma graphRun_succ_conclude (llm : LLM) (now : ℤ) (fuel : Nat) (s : InterviewState) :
    graphRun llm now (fuel + 1) .conclude s = .ok (concludeInterview s) := rfl

/-- LangGraph runs the submit/start pass as analyze → generate → check; the
`process_answer` arm of `_should_continue_or_end` is never returned, so a
pass waits or concludes right after the gate re-check. -/
lemma graphInvoke_of_steps {llm : LLM} (now : ℤ) {s s1 s2 : InterviewState}
    (h1 : analyzeDocuments llm s = .ok s1) (h2 : generateQuestion llm s1 = .ok s2) :
    graphInvoke llm now s =
      if shouldContinueOrEnd (checkTime now s2) = GateRoute.conclude
      then .ok (concludeInterview (checkTime now s2))
      else .ok (checkTime now s2) := by
  show graphRun llm now (24 + 1) .analyze s = _
  rw [graphRun_succ_analyze, h1]
  show graphRun llm now (23 + 1) .generate s1 = _
  rw [graphRun_succ_generate, h2]
  show graphRun llm now (22 + 1) .check s2 = _
  rw [graphRun_succ_check]
  cases h3 : shouldContinueOrEnd (checkTime now s2) with
  | wait_for_answer => simp
  | process_answer => exact absurd h3 (shouldContinueOrEnd_ne_process _)
  | conclude =>
    rw [graphRun_succ_conclude]
    simp

lemma graphInvoke_error_shape {llm : LLM} {now : ℤ} {s : InterviewState} {r : InterviewState}
    (h : graphInvoke llm now s = .ok r) :
    ∃ s1 s2, analyzeDocuments llm s = .ok s1 ∧ generateQuestion llm s1 = .ok s2 ∧
      (r = concludeInterview (checkTime now s2) ∨ r = checkTime now s2) := by
  have h0 : graphRun llm now (24 + 1) .analyze s = .ok r := h
  rw [graphRun_succ_analyze] at h0
  cases h1 : analyzeDocuments llm s with
  | error e => rw [h1] at h0; cases h0
  | ok s1 =>
    rw [h1] at h0
    have h0' : graphRun llm now (23 + 1) .generate s1 = .ok r := h0
    rw [graphRun_succ_generate] at h0'
    cases h2 : generateQuestion llm s1 with
    | error e => rw [h2] at h0'; cases h0'
    | ok s2 =>
      rw [h2] at h0'
      have h0'' : graphRun llm now (22 + 1) .check s2 = .ok r := h0'
      rw [graphRun_succ_check] at h0''
      refine ⟨s1, s2, rfl, h2, ?_⟩
      cases h3 : shouldContinueOrEnd (checkTime now s2) with
      | wait_for_answer => rw [h3] at h0''; cases h0''; exact Or.inr rfl
      | process_answer => exact absurd h3 (shouldContinueOrEnd_ne_process _)
      | conclude =>
        rw [h3, graphRun_succ_conclude] at h0''
        cases h0''
        exact Or.inl rfl

lemma analyzeDocuments_ok {llm : LLM} {s s' : InterviewState}
    (h : analyzeDocuments llm s = .ok s') :
    s'.questions_asked = s.questions_asked ∧
    s'.topic_followup_counts = s.topic_followup_counts ∧
    s'.needs_followup = s.needs_followup ∧
    s'.current_topic = s.current_topic ∧
    s'.start_time = s.start_time ∧
    s'.is_concluded = s.is_concluded ∧
    s'.conclusion_reason = s.conclusion_reason := by
  unfold analyzeDocuments at h
  cases hl : llm analyzeSystemPrompt (analyzeUserPrompt s.resume_text s.job_description_text) with
  | error e => rw [hl] at h; cases h
  | ok strategy =>
    rw [hl] at h
    cases h
    exact ⟨rfl, rfl, rfl, rfl, rfl, rfl, rfl⟩

lemma generateQuestion_ok_frame {llm : LLM} {s s' : InterviewState}
    (h : generateQuestion llm s = .ok s') :
    s'.questions_asked = s.questions_asked + 1 ∧
    s'.start_time = s.start_time ∧
    s'.is_concluded = s.is_concluded ∧
    s'.conclusion_reason = s.conclusion_reason := by
  simp only [generateQuestion] at h
  by_cases hc1 : s.needs_followup = true ∧ s.topic_followup_counts s.current_topic < 2
  · rw [if_pos hc1] at h
    split at h
    · cases h
    · cases h; exact ⟨rfl, rfl, rfl, rfl⟩
  · rw [if_neg hc1] at h
    by_cases hq0 : s.questions_asked = 0
    · rw [if_pos hq0] at h
      split at h
      · cases h
      · cases h
        refine ⟨?_, rfl, rfl, rfl⟩
        rw [hq0]
    · rw [if_neg hq0] at h
      split at h
      · cases h
      · cases h; exact ⟨rfl, rfl, rfl, rfl⟩

lemma generateQuestion_ok_counts {llm : LLM} {s s' : InterviewState}
    (h : generateQuestion llm s = .ok s') (hb : ∀ t, s.topic_followup_counts t ≤ 2) :
    ∀ t, s'.topic_followup_counts t ≤ 2 := by
  simp only [generateQuestion] at h
  by_cases hc1 : s.needs_followup = true ∧ s.topic_followup_counts s.current_topic < 2
  · rw [if_pos hc1] at h
    split at h
    · cases h
    · cases h
      intro t
      show (if t = s.current_topic then s.topic_followup_counts s.current_topic + 1
        else s.topic_followup_counts t) ≤ 2
      by_cases ht : t = s.current_topic
      · rw [if_pos ht]
        have := hc1.2
        omega
      · rw [if_neg ht]
        exact hb t
  · rw [if_neg hc1] at h
    by_cases hq0 : s.questions_asked = 0
    · rw [if_pos hq0] at h
      split at h
      · cases h
      · cases h; exact hb
    · rw [if_neg hq0] at h
      split at h
      · cases h
      · cases h; exact hb

lemma analyzeDocuments_llmOf (g : Str → Str → Str) (s : InterviewState) :
    analyzeDocuments (llmOf g) s = .ok { s with
      interview_strategy := g analyzeSystemPrompt
        (analyzeUserPrompt s.resume_text s.job_description_text),
      key_topics := extractTopics (g analyzeSystemPrompt
        (analyzeUserPrompt s.resume_text s.job_description_text)),
      messages := s.messages ++ [⟨str "system", g analyzeSystemPrompt (analyzeUserPrompt s.resume_text s.job_description_text), .absent⟩] } := rfl

lemma generateQuestion_llmOf_total (g : Str → Str → Str) (s : InterviewState) :
    ∃ s', generateQuestion (llmOf g) s = .ok s' := by
  simp only [generateQuestion]
  by_cases hc1 : s.needs_followup = true ∧ s.topic_followup_counts s.current_topic < 2
  · rw [if_pos hc1]
    exact ⟨_, rfl⟩
  · rw [if_neg hc1]
    by_cases hq0 : s.questions_asked = 0
    · rw [if_pos hq0]
      exact ⟨_, rfl⟩
    · rw [if_neg hq0]
      exact ⟨_, rfl⟩

lemma graphInvoke_questions {llm : LLM} {now : ℤ} {s r : InterviewState}
    (h : graphInvoke llm now s = .ok r) :
    r.questions_asked = s.questions_asked + 1 := by
  obtain ⟨s1, s2, h1, h2, hr⟩ := graphInvoke_error_shape h
  have e1 := (analyzeDocuments_ok h1).1
  have e2 := (generateQuestion_ok_frame h2).1
  rcases hr with rfl | rfl
  · show s2.questions_asked = _
    rw [e2, e1]
  · show s2.questions_asked = _
    rw [e2, e1]

lemma graphInvoke_counts {llm : LLM} {now : ℤ} {s r : InterviewState}
    (h : graphInvoke llm now s = .ok r)
    (hb : ∀ t, s.topic_followup_counts t ≤ 2) : ∀ t, r.topic_followup_counts t ≤ 2 := by
  obtain ⟨s1, s2, h1, h2, hr⟩ := graphInvoke_error_shape h
  have e1 := (analyzeDocuments_ok h1).2.1
  have hb1 : ∀ t, s1.topic_followup_counts t ≤ 2 := by rw [e1]; exact hb
  have hb2 := generateQuestion_ok_counts h2 hb1
  rcases hr with rfl | rfl
  · exact hb2
  · exact hb2

lemma topicScopedContext_absent (msgs : List Msg)
    (h : ∀ m ∈ msgs, m.tag = TopicTag.absent) :
    topicScopedContext msgs none = str "First question on this topic" := by
  have hf : msgs.filterMap (fun m =>
      if topicValOf m.tag = (none : Option Str)
          ∧ (m.role = str "assistant" ∨ m.role = str "user") then
        some ((if m.role = str "assistant" then str "Interviewer: " else str "Candidate: ")
          ++ m.content)
      else none) = [] := by
    rw [List.filterMap_eq_nil_iff]
    intro m hm
    rw [h m hm]
    simp [topicValOf]
  simp only [topicScopedContext, hf]
  simp

/-- Modelled from the claim's wording (C6): a line qualifies purely by the
length of its marker-stripped remainder, with no precondition on how the
line begins. -/
def claimExtractTopics (strategy : Str) : List Str :=
  let ts := (((splitLines strategy).filter
      (fun line => decide (10 < (cleanTopic (pyStrip line)).length))).map
      (fun line => cleanTopic (pyStrip line))).take 5
  if ts = [] then defaultTopics else ts

/-- The qualification the source actually applies: the stripped line must
begin with one of `1.`–`5.`, `-`, `*`, and its marker-stripped remainder
must be longer than 10 characters. -/
def amendedQual (line : Str) : Bool :=
  topicLinePrefixes.any (fun p => leadsWith p (pyStrip line))
    && decide (10 < (cleanTopic (pyStrip line)).length)

/-- The amended reading of the topic extractor. -/
def amendedExtractTopics (strategy : Str) : List Str :=
  let ts := (((splitLines strategy).filter amendedQual).map
      (fun line => cleanTopic (pyStrip line))).take 5
  if ts = [] then defaultTopics else ts

lemma amendedQual_iff (line : Str) :
    amendedQual line = true ↔
      (topicLinePrefixes.any (fun p => leadsWith p (pyStrip line)) = true
        ∧ 10 < (cleanTopic (pyStrip line)).length) := by
  simp [amendedQual]

lemma foldl_topicStep_eq :
    ∀ (lines : List Str) (acc : List Str), acc.length ≤ 5 →
      lines.foldl topicStep acc =
        acc ++ (((lines.filter amendedQual).map
          (fun line => cleanTopic (pyStrip line))).take (5 - acc.length)) := by
  intro lines
  induction lines with
  | nil => intro acc _; simp
  | cons line rest ih =>
    intro acc hacc
    rw [List.foldl_cons, List.filter_cons]
    by_cases hq : amendedQual line = true
    · obtain ⟨hpre, hlen⟩ := (amendedQual_iff line).mp hq
      rw [hq]
      simp only [if_true]
      by_cases hc : acc.length < 5
      · have hstep : topicStep acc line = acc ++ [cleanTopic (pyStrip line)] := by
          unfold topicStep
          rw [if_pos hpre, if_pos ⟨hlen, hc⟩]
        rw [hstep, ih _ (by rw [List.length_append]; simp; omega)]
        rw [List.map_cons]
        rw [show 5 - acc.length = (5 - (acc.length + 1)) + 1 from by omega]
        rw [List.take_succ_cons]
        rw [List.length_append]
        simp [List.append_assoc]
      · have hacc5 : acc.length = 5 := by omega
        have hstep : topicStep acc line = acc := by
          unfold topicStep
          rw [if_pos hpre, if_neg (fun hh => hc hh.2)]
        rw [hstep, ih _ hacc]
        rw [List.map_cons]
        rw [show 5 - acc.length = 0 from by omega]
        simp
    · have hqf : amendedQual line = false := by
        cases hb : amendedQual line
        · rfl
        · exact absurd hb hq
      rw [hqf]
      simp only [Bool.false_eq_true, if_false]
      have hstep : topicStep acc line = acc := by
        unfold topicStep
        by_cases hpre : topicLinePrefixes.any (fun p => leadsWith p (pyStrip line)) = true
        · rw [if_pos hpre]
          have hlen : ¬ 10 < (cleanTopic (pyStrip line)).length := by
            intro hl
            exact hq ((amendedQual_iff line).mpr ⟨hpre, hl⟩)
          rw [if_neg (fun hh => hlen hh.1)]
        · rw [if_neg hpre]
      rw [hstep]
      exact ih _ hacc

/-- A minimal interview state used as the base of concrete witnesses. -/
def blankState : InterviewState :=
  { session_id := str "s", resume_text := str "resume", job_description_text := str "jd",
    messages := [], interview_strategy := [], key_topics := [], questions_asked := 0,
    current_question := none, current_topic := none, needs_followup := false,
    topic_followup_counts := fun _ => 0, start_time := 0, time_elapsed := 0,
    is_concluded := false, conclusion_reason := none }

/-- A witness oracle whose every call answers a fixed string. -/
def okLLM : LLM := llmOf (fun _ _ => str "ok")

/-! ### Claim theorems -/

/-- C6 (corrected): the claim omits the precondition that a topic line must
begin with one of `1.`–`5.`, `-`, `*`; a long line with no such marker is
not collected by `_extract_topics`.  Counterexample at a concrete strategy
text. -/
theorem c6_claim_counterexample :
    extractTopics (str "An unnumbered strategy line") = defaultTopics ∧
    claimExtractTopics (str "An unnumbered strategy line")
      = [str "An unnumbered strategy line"] ∧
    extractTopics (str "An unnumbered strategy line")
      ≠ claimExtractTopics (str "An unnumbered strategy line") := by
  refine ⟨by decide, by decide, by decide⟩

/-- C6 (amended): `_extract_topics` collects, in document order and capped at
5, exactly the lines that begin (after stripping) with `1.`–`5.`, `-` or `*`
and whose marker-stripped remainder is longer than 10 characters; it makes no
model call, and when no line qualifies it returns the fixed default list
["Technical skills", "Experience and background", "Problem-solving approach"]
in that order. -/
theorem c6_topic_extractor (strategy : Str) :
    extractTopics strategy = amendedExtractTopics strategy ∧
    ((splitLines strategy).filter amendedQual = [] →
      extractTopics strategy = defaultTopics) := by
  have hmain : extractTopics strategy = amendedExtractTopics strategy := by
    unfold extractTopics amendedExtractTopics
    rw [foldl_topicStep_eq (splitLines strategy) [] (by simp)]
    simp
  refine ⟨hmain, fun hf => ?_⟩
  rw [hmain]
  unfold amendedExtractTopics
  rw [hf]
  simp

/-- Witness for C6's amended theorem at a concrete marker-free strategy text. -/
theorem c6_topic_extractor_witness :
    extractTopics (str "An unnumbered strategy line") = defaultTopics :=
  (c6_topic_extractor (str "An unnumbered strategy line")).2 (by decide)

/-- C7 (confirmed): the sufficiency check reduces the model's answer to a
boolean by searching for the literal token "yes" in the lowercased response;
whenever the token does not occur, the pass sets `needs_followup = false`
(also on the guard branches that make no model call). -/
theorem c7_sufficiency_token (resp : Str) :
    (needsFollowupOf resp = true ↔ occursIn (str "yes") (pyLower resp)) ∧
    (∀ (g : Str → Str → Str) (s s' : InterviewState),
      (∀ sys usr, ¬ occursIn (str "yes") (pyLower (g sys usr))) →
      processAnswer (llmOf g) s = .ok s' → s'.needs_followup = false) := by
  constructor
  · exact hasToken_iff _ _
  · intro g s s' hg h
    cases hl : s.messages.getLast? with
    | none =>
      simp only [processAnswer, hl] at h
      cases h
      rfl
    | some m =>
      simp only [processAnswer, hl] at h
      by_cases hr : m.role = str "user"
      · rw [if_pos hr] at h
        simp only [llmOf] at h
        cases h
        show needsFollowupOf
          (g processSystemPrompt (processUserPrompt s.current_question m.content)) = false
        cases hb : needsFollowupOf
            (g processSystemPrompt (processUserPrompt s.current_question m.content)) with
        | false => rfl
        | true => exact absurd ((hasToken_iff _ _).mp hb) (hg _ _)
      · rw [if_neg hr] at h
        cases h
        rfl

/-- A state whose last message is a candidate answer, for the C7 witness. -/
def c7State : InterviewState :=
  { blankState with
    messages := [⟨str "user", str "I built a data pipeline", TopicTag.absent⟩],
    current_question := some (str "Tell me about your work") }

/-- Witness for C7: a model that answers "No" yields no follow-up. -/
theorem c7_sufficiency_token_witness :
    ({ c7State with needs_followup := false } : InterviewState).needs_followup = false :=
  (c7_sufficiency_token (str "No")).2 (fun _ _ => str "No") c7State
    { c7State with needs_followup := false }
    (fun sys usr hocc => absurd ((hasToken_iff _ _).mpr hocc)
      (show ¬ hasToken (str "yes") (pyLower (str "No")) = true by decide))
    rfl

/-- C8 (confirmed): the full-history context builder renders exactly the
user/assistant turns, in order, as "Candidate: …" / "Interviewer: …" lines;
when nothing renders (empty history included) it returns the literal
placeholder, and its result is never the empty string. -/
theorem c8_context_builder (msgs : List Msg) :
    buildConversationContext msgs =
      (if msgs.filterMap renderLine = [] then str "This is the first question."
       else joinWith (str "\n") (msgs.filterMap renderLine)) ∧
    buildConversationContext msgs ≠ [] := by
  have hmain : buildConversationContext msgs =
      (if msgs.filterMap renderLine = [] then str "This is the first question."
       else joinWith (str "\n") (msgs.filterMap renderLine)) := by
    unfold buildConversationContext
    by_cases hm : msgs = []
    · subst hm; simp
    · rw [if_neg hm]
  refine ⟨hmain, ?_⟩
  rw [hmain]
  by_cases hf : msgs.filterMap renderLine = []
  · rw [if_pos hf]
    decide
  · rw [if_neg hf]
    refine joinWith_ne_nil _ _ hf (fun l hl => ?_)
    obtain ⟨m, hm, heq⟩ := List.mem_filterMap.mp hl
    exact renderLine_ne_nil heq

/-- C10 (confirmed): `_conclude_interview` re-derives the reason from the
snapshot, time gate first: with both gates crossed the reason is
"time_limit" whatever `conclusion_reason` routing stored, and
"max_questions" is produced only when the time gate is not crossed. -/
theorem c10_conclusion_reason (s : InterviewState) :
    (1800 ≤ s.time_elapsed →
      (concludeInterview s).conclusion_reason = some (str "time_limit")) ∧
    (s.time_elapsed < 1800 → 16 ≤ s.questions_asked →
      (concludeInterview s).conclusion_reason = some (str "max_questions")) ∧
    ((concludeInterview s).conclusion_reason = some (str "max_questions") →
      s.time_elapsed < 1800) := by
  refine ⟨?_, ?_, ?_⟩
  · intro ht
    have ht' : s.time_elapsed ≥ MAX_INTERVIEW_TIME_SECONDS := by
      rw [max_time_eq]; exact ht
    simp [concludeInterview, ht']
  · intro ht hq
    have ht' : ¬ (s.time_elapsed ≥ MAX_INTERVIEW_TIME_SECONDS) := by
      rw [max_time_eq]; exact not_le.mpr ht
    have hq' : s.questions_asked ≥ MAX_QUESTIONS := hq
    simp [concludeInterview, ht', hq']
  · intro h
    by_contra hc
    push_neg at hc
    have ht' : s.time_elapsed ≥ MAX_INTERVIEW_TIME_SECONDS := by
      rw [max_time_eq]; exact hc
    simp [concludeInterview, ht'] at h
    exact absurd h (by decide)

/-- A state with both gates crossed and a routing-written reason, for C10. -/
def c10State : InterviewState :=
  { blankState with
    time_elapsed := 1800, questions_asked := 16,
    conclusion_reason := some (str "max_questions") }

/-- Witness for C10: both gates crossed, stored reason "max_questions",
concluded reason still "time_limit". -/
theorem c10_conclusion_reason_witness :
    (concludeInterview c10State).conclusion_reason = some (str "time_limit") :=
  (c10_conclusion_reason c10State).1 (by decide)

/-- C1 (confirmed): at the start of `_route_after_answer`, elapsed ≥ 1800 s
routes to conclude with reason "time_limit"; otherwise questions_asked ≥ 16
routes to conclude with reason "max_questions"; in either case the next
node is `conclude_interview`, whose only produced turn is the conclusion
message — never a question turn. -/
theorem c1_gate_exclusivity (llm : LLM) (now : ℤ) (fuel : Nat) (s : InterviewState)
    (h : 1800 ≤ s.time_elapsed ∨ (s.time_elapsed < 1800 ∧ 16 ≤ s.questions_asked)) :
    (routeAfterAnswer s).1 = AnswerRoute.conclude ∧
    graphRun llm now (fuel + 1) Node.conclude (routeAfterAnswer s).2 =
      .ok (concludeInterview (routeAfterAnswer s).2) ∧
    (concludeInterview (routeAfterAnswer s).2).is_concluded = true ∧
    (concludeInterview (routeAfterAnswer s).2).conclusion_reason =
      some (if 1800 ≤ s.time_elapsed then str "time_limit" else str "max_questions") ∧
    (concludeInterview (routeAfterAnswer s).2).messages =
      s.messages ++ [⟨str "assistant",
        (if 1800 ≤ s.time_elapsed then timeLimitMessage s.questions_asked
         else maxQuestionsMessage s.questions_asked), TopicTag.absent⟩] := by
  rcases h with ht | ⟨ht, hq⟩
  · have ht' : s.time_elapsed ≥ MAX_INTERVIEW_TIME_SECONDS := by
      rw [max_time_eq]; exact ht
    have hroute : routeAfterAnswer s =
        (.conclude, { s with conclusion_reason := some (str "time_limit") }) := by
      unfold routeAfterAnswer
      rw [if_pos ht']
    rw [hroute]
    refine ⟨rfl, rfl, rfl, ?_, ?_⟩
    · simp [concludeInterview, ht', if_pos ht]
    · simp [concludeInterview, ht', if_pos ht]
  · have ht' : ¬ (s.time_elapsed ≥ MAX_INTERVIEW_TIME_SECONDS) := by
      rw [max_time_eq]; exact not_le.mpr ht
    have hq' : s.questions_asked ≥ MAX_QUESTIONS := hq
    have hroute : routeAfterAnswer s =
        (.conclude, { s with conclusion_reason := some (str "max_questions") }) := by
      unfold routeAfterAnswer
      rw [if_neg ht', if_pos hq']
    rw [hroute]
    have hntle : ¬ (1800 ≤ s.time_elapsed) := not_le.mpr ht
    have hne : str "max_questions" ≠ str "time_limit" := by decide
    refine ⟨rfl, rfl, rfl, ?_, ?_⟩
    · simp [concludeInterview, ht', hq', if_neg hntle]
    · simp [concludeInterview, ht', hq', if_neg hntle, hne]

/-- A state past the time gate, for the C1 witness. -/
def c1State : InterviewState :=
  { blankState with time_elapsed := 1800, questions_asked := 3 }

/-- Witness for C1 at a concrete state with elapsed = 1800 s. -/
theorem c1_gate_exclusivity_witness :
    (routeAfterAnswer c1State).1 = AnswerRoute.conclude ∧
    graphRun okLLM 0 (0 + 1) Node.conclude (routeAfterAnswer c1State).2 =
      .ok (concludeInterview (routeAfterAnswer c1State).2) ∧
    (concludeInterview (routeAfterAnswer c1State).2).is_concluded = true ∧
    (concludeInterview (routeAfterAnswer c1State).2).conclusion_reason =
      some (if 1800 ≤ c1State.time_elapsed then str "time_limit" else str "max_questions") ∧
    (concludeInterview (routeAfterAnswer c1State).2).messages =
      c1State.messages ++ [⟨str "assistant",
        (if 1800 ≤ c1State.time_elapsed then timeLimitMessage c1State.questions_asked
         else maxQuestionsMessage c1State.questions_asked), TopicTag.absent⟩] :=
  c1_gate_exclusivity okLLM 0 0 c1State (Or.inl (by decide))

/-- C2 (confirmed): after `generate_question` the gates are re-checked by
`check_time` + `_should_continue_or_end` with the same 1800 s / 16-question
thresholds, and when either is met the pass ends in `conclude_interview`,
which overwrites `current_question` with a conclusion message; in
particular a SubmitAnswer pass on a session with 15 questions asked and
time remaining returns a conclusion with reason "max_questions" instead of
the 16th question. -/
theorem c2_post_generation_recheck :
    (∀ (llm : LLM) (now : ℤ) (s0 s1 s2 : InterviewState),
      analyzeDocuments llm s0 = .ok s1 →
      generateQuestion llm s1 = .ok s2 →
      (1800 ≤ now - s0.start_time ∨ 16 ≤ s2.questions_asked) →
      graphInvoke llm now s0 = .ok (concludeInterview (checkTime now s2)) ∧
      (concludeInterview (checkTime now s2)).is_concluded = true ∧
      (concludeInterview (checkTime now s2)).current_question =
        some (if 1800 ≤ now - s0.start_time then timeLimitMessage s2.questions_asked
              else maxQuestionsMessage s2.questions_asked) ∧
      (concludeInterview (checkTime now s2)).conclusion_reason =
        some (if 1800 ≤ now - s0.start_time then str "time_limit"
              else str "max_questions")) ∧
    (∀ (g : Str → Str → Str) (nowDt nowG st : ℤ) (session : SessionData) (answer : Str),
      session.start_time = some st →
      session.is_concluded = false →
      session.questions_asked = 15 →
      nowG - st < 1800 →
      (submit_answer (llmOf g) nowDt nowG session answer).2 =
        .ok { session_id := session.session_id, next_question := none,
              is_concluded := true,
              conclusion_message := some (maxQuestionsMessage 16),
              time_remaining_seconds := max 0 (30 * 60 - (nowDt - st)) } ∧
      (submit_answer (llmOf g) nowDt nowG session answer).1.questions_asked = 16 ∧
      (submit_answer (llmOf g) nowDt nowG session answer).1.is_concluded = true ∧
      (submit_answer (llmOf g) nowDt nowG session answer).1.conclusion_reason =
        some (str "max_questions")) := by
  constructor
  · intro llm now s0 s1 s2 h1 h2 hgate
    have hst1 := (analyzeDocuments_ok h1).2.2.2.2.1
    have hst2 := (generateQuestion_ok_frame h2).2.1
    have hstart : s2.start_time = s0.start_time := by rw [hst2, hst1]
    have hTE : (checkTime now s2).time_elapsed = now - s0.start_time := by
      simp [checkTime, hstart]
    have hrun := graphInvoke_of_steps now h1 h2
    by_cases htle : 1800 ≤ now - s0.start_time
    · have hA : (checkTime now s2).time_elapsed ≥ MAX_INTERVIEW_TIME_SECONDS := by
        rw [hTE, max_time_eq]; exact htle
      have hgate' : shouldContinueOrEnd (checkTime now s2) = GateRoute.conclude := by
        unfold shouldContinueOrEnd
        rw [if_pos hA]
      rw [hgate', if_pos rfl] at hrun
      refine ⟨hrun, rfl, ?_, ?_⟩
      · simp [concludeInterview, hA, if_pos htle]
        rfl
      · simp [concludeInterview, hA, if_pos htle]
    · have hq16 : 16 ≤ s2.questions_asked := by
        rcases hgate with ht | hq
        · exact absurd ht htle
        · exact hq
      have hA : ¬ ((checkTime now s2).time_elapsed ≥ MAX_INTERVIEW_TIME_SECONDS) := by
        rw [hTE, max_time_eq]; exact htle
      have hB : (checkTime now s2).questions_asked ≥ MAX_QUESTIONS := hq16
      have hgate' : shouldContinueOrEnd (checkTime now s2) = GateRoute.conclude := by
        unfold shouldContinueOrEnd
        rw [if_neg hA, if_pos hB]
      rw [hgate', if_pos rfl] at hrun
      have hne : str "max_questions" ≠ str "time_limit" := by decide
      refine ⟨hrun, rfl, ?_, ?_⟩
      · simp [concludeInterview, hA, hB, if_neg htle, hne]
        rfl
      · simp [concludeInterview, hA, hB, if_neg htle]
  · intro g nowDt nowG st session answer hst hc h15 hlt
    obtain ⟨s1, h1⟩ : ∃ x, analyzeDocuments (llmOf g)
        (submitState session
          (session.conversation_history ++ [{ role := str "user", content := answer }])
          (nowDt - st) st) = .ok x :=
      ⟨_, analyzeDocuments_llmOf g _⟩
    obtain ⟨s2, h2⟩ := generateQuestion_llmOf_total g s1
    have e1q := (analyzeDocuments_ok h1).1
    have e1st := (analyzeDocuments_ok h1).2.2.2.2.1
    have e2q := (generateQuestion_ok_frame h2).1
    have e2st := (generateQuestion_ok_frame h2).2.1
    have hq2 : s2.questions_asked = 16 := by
      rw [e2q, e1q]
      show (submitState session _ _ _).questions_asked + 1 = 16
      simp [submitState, h15]
    have hstart2 : s2.start_time = st := by
      rw [e2st, e1st]
      rfl
    have hTE : (checkTime nowG s2).time_elapsed = nowG - st := by
      simp [checkTime, hstart2]
    have hA : ¬ ((checkTime nowG s2).time_elapsed ≥ MAX_INTERVIEW_TIME_SECONDS) := by
      rw [hTE, max_time_eq]; exact not_le.mpr hlt
    have hB : (checkTime nowG s2).questions_asked ≥ MAX_QUESTIONS := by
      show MAX_QUESTIONS ≤ s2.questions_asked
      rw [hq2]
      decide
    have hgate' : shouldContinueOrEnd (checkTime nowG s2) = GateRoute.conclude := by
      unfold shouldContinueOrEnd
      rw [if_neg hA, if_pos hB]
    have hrun := graphInvoke_of_steps nowG h1 h2
    rw [hgate', if_pos rfl] at hrun
    have hne : str "max_questions" ≠ str "time_limit" := by decide
    have hreason : (concludeInterview (checkTime nowG s2)).conclusion_reason =
        some (str "max_questions") := by
      simp [concludeInterview, hA, hB]
    have hcq : (concludeInterview (checkTime nowG s2)).current_question =
        some (maxQuestionsMessage 16) := by
      simp [concludeInterview, hA, hB, hne, hq2]
      show maxQuestionsMessage s2.questions_asked = maxQuestionsMessage 16
      rw [hq2]
    have hconc : (concludeInterview (checkTime nowG s2)).is_concluded = true := rfl
    have hqq : (concludeInterview (checkTime nowG s2)).questions_asked = 16 := hq2
    have hcne : ¬ (session.is_concluded = true) := by rw [hc]; simp
    have hmne : ¬ (maxQuestionsMessage 16 = []) := by decide
    simp only [submit_answer, hst, if_neg hcne, hrun, hconc, hreason, hcq, hqq, hmne]
    simp [hmne]

/-- A session one question short of the budget, for the C2 witness. -/
def c2Session : SessionData :=
  { session_id := str "s", resume_text := str "resume",
    job_description_text := str "jd", conversation_history := [],
    interview_strategy := some (str "strategy"),
    key_topics := [str "Topic number one"], questions_asked := 15,
    topic_followup_counts := fun _ => 0, start_time := some 0,
    is_active := true, is_concluded := false, conclusion_reason := none }

/-- Witness for C2: with 15 questions asked and time remaining, the pass
returns the max-questions conclusion instead of a 16th question. -/
theorem c2_post_generation_recheck_witness :
    (submit_answer (llmOf (fun _ _ => str "ok")) 5 5 c2Session (str "my answer")).2 =
      .ok { session_id := c2Session.session_id, next_question := none,
            is_concluded := true,
            conclusion_message := some (maxQuestionsMessage 16),
            time_remaining_seconds := max 0 (30 * 60 - (5 - 0)) } :=
  (c2_post_generation_recheck.2 (fun _ _ => str "ok") 5 5 0 c2Session (str "my answer")
    rfl rfl rfl (by decide)).1

lemma submit_answer_ok_fields {llm : LLM} {nowDt nowG : ℤ} {session : SessionData}
    {answer : Str} {st : ℤ} {result : InterviewState}
    (hst : session.start_time = some st) (hc : ¬ session.is_concluded = true)
    (hg : graphInvoke llm nowG (submitState session
      (session.conversation_history ++ [{ role := str "user", content := answer }])
      (nowDt - st) st) = .ok result) :
    (submit_answer llm nowDt nowG session answer).1.questions_asked =
      result.questions_asked ∧
    (submit_answer llm nowDt nowG session answer).1.topic_followup_counts =
      result.topic_followup_counts ∧
    (submit_answer llm nowDt nowG session answer).1.is_concluded = result.is_concluded ∧
    (submit_answer llm nowDt nowG session answer).1.conclusion_reason =
      result.conclusion_reason := by
  cases hcq : result.current_question with
  | none =>
    simp only [submit_answer, hst, if_neg hc, hg, hcq]
    simp
  | some q =>
    by_cases hq0 : q = []
    · subst hq0
      simp [submit_answer, hst, if_neg hc, hg, hcq]
    · simp [submit_answer, hst, if_neg hc, hg, hcq, hq0]

lemma submit_answer_step (llm : LLM) (nowDt nowG : ℤ) (session : SessionData)
    (answer : Str) :
    session.questions_asked ≤
      (submit_answer llm nowDt nowG session answer).1.questions_asked ∧
    (session.is_concluded = true →
      (submit_answer llm nowDt nowG session answer).1 = session) ∧
    ((∀ t, session.topic_followup_counts t ≤ 2) →
      ∀ t, (submit_answer llm nowDt nowG session answer).1.topic_followup_counts t ≤ 2) := by
  cases hst : session.start_time with
  | none =>
    simp only [submit_answer, hst]
    exact ⟨le_refl _, fun _ => trivial, fun hb => hb⟩
  | some st =>
    by_cases hc : session.is_concluded = true
    · simp only [submit_answer, hst, if_pos hc]
      exact ⟨le_refl _, fun _ => trivial, fun hb => hb⟩
    · cases hg : graphInvoke llm nowG (submitState session
          (session.conversation_history ++ [{ role := str "user", content := answer }])
          (nowDt - st) st) with
      | error e =>
        simp only [submit_answer, hst, if_neg hc, hg]
        exact ⟨le_refl _, fun habs => absurd habs hc, fun hb => hb⟩
      | ok result =>
        obtain ⟨f1, f2, f3, f4⟩ := submit_answer_ok_fields hst hc hg
        have hq := graphInvoke_questions hg
        refine ⟨?_, fun habs => absurd habs hc, fun hb t => ?_⟩
        · rw [f1, hq]
          show session.questions_asked ≤ session.questions_asked + 1
          omega
        · rw [f2]
          exact graphInvoke_counts hg hb t

/-- C3 (confirmed): a follow-up is generated, and its topic's counter
incremented, only when that counter is strictly below 2, so every value of
`topic_followup_counts` stays at most 2 across any number of SubmitAnswer
turns. -/
theorem c3_followup_bound :
    (∀ (llm : LLM) (s s' : InterviewState), generateQuestion llm s = .ok s' →
      (∀ t, s.topic_followup_counts t ≤ 2) → ∀ t, s'.topic_followup_counts t ≤ 2) ∧
    (∀ (calls : List Call) (session : SessionData),
      (∀ t, session.topic_followup_counts t ≤ 2) →
      ∀ t, (runSubmits calls session).topic_followup_counts t ≤ 2) := by
  refine ⟨fun llm s s' h hb => generateQuestion_ok_counts h hb, ?_⟩
  intro calls
  induction calls with
  | nil => intro session hb; exact hb
  | cons c cs ih =>
    intro session hb
    exact ih _ ((submit_answer_step c.llm c.nowDt c.nowG session c.answer).2.2 hb)

/-- A started, unconcluded session, as the base of concrete witnesses. -/
def baseSession : SessionData :=
  { session_id := str "s", resume_text := str "resume",
    job_description_text := str "jd", conversation_history := [],
    interview_strategy := some (str "strategy"),
    key_topics := [str "Topic number one"], questions_asked := 1,
    topic_followup_counts := fun _ => 0, start_time := some 0,
    is_active := true, is_concluded := false, conclusion_reason := none }

/-- A concrete SubmitAnswer call for witnesses. -/
def baseCall : Call := ⟨okLLM, 5, 5, str "my answer"⟩

/-- Witness for C3 after one concrete SubmitAnswer call. -/
theorem c3_followup_bound_witness :
    (runSubmits [baseCall] baseSession).topic_followup_counts none ≤ 2 :=
  c3_followup_bound.2 [baseCall] baseSession (fun _ => Nat.zero_le 2) none

/-- C5 (confirmed): across any sequence of SubmitAnswer calls
`questions_asked` never decreases — each generated question adds exactly
one — and `is_concluded` never reverts from true to false (a concluded
session is rejected before any mutation). -/
theorem c5_monotonicity :
    (∀ (calls : List Call) (session : SessionData),
      session.questions_asked ≤ (runSubmits calls session).questions_asked ∧
      (session.is_concluded = true → (runSubmits calls session).is_concluded = true)) ∧
    (∀ (llm : LLM) (s s' : InterviewState),
      generateQuestion llm s = .ok s' → s'.questions_asked = s.questions_asked + 1) := by
  constructor
  · intro calls
    induction calls with
    | nil => intro session; exact ⟨le_refl _, fun h => h⟩
    | cons c cs ih =>
      intro session
      have hstep := submit_answer_step c.llm c.nowDt c.nowG session c.answer
      constructor
      · exact le_trans hstep.1
          (ih (submit_answer c.llm c.nowDt c.nowG session c.answer).1).1
      · intro h
        show (runSubmits cs (submit_answer c.llm c.nowDt c.nowG session c.answer).1).is_concluded = true
        rw [hstep.2.1 h]
        exact (ih session).2 h
  · intro llm s s' h
    exact (generateQuestion_ok_frame h).1

/-- Witness for C5 after one concrete SubmitAnswer call. -/
theorem c5_monotonicity_witness :
    baseSession.questions_asked ≤ (runSubmits [baseCall] baseSession).questions_asked :=
  (c5_monotonicity.1 [baseCall] baseSession).1

/-- C9 (confirmed): every SubmitAnswer snapshot has `current_topic = None`,
`needs_followup = false` and messages with no `"topic"` key; and whenever the
follow-up branch of `_generate_question` runs on such a None-topic snapshot,
the follow-up count is read and incremented under the `None` key, the
topic-scoped context falls back to "First question on this topic", and the
new turn is tagged with the `None` topic. -/
theorem c9_none_topic_followup :
    (∀ (session : SessionData) (history1 : List Message) (te st : ℤ),
      (submitState session history1 te st).current_topic = none ∧
      (submitState session history1 te st).needs_followup = false ∧
      ∀ m ∈ (submitState session history1 te st).messages, m.tag = TopicTag.absent) ∧
    (∀ (g : Str → Str → Str) (s : InterviewState),
      s.needs_followup = true → s.current_topic = none →
      s.topic_followup_counts none < 2 →
      (∀ m ∈ s.messages, m.tag = TopicTag.absent) →
      topicScopedContext s.messages none = str "First question on this topic" ∧
      generateQuestion (llmOf g) s = .ok { s with
        current_question := some (pyStrip (g (followupSystemPrompt none)
          (followupUserPrompt (s.topic_followup_counts none)
            (str "First question on this topic")))),
        current_topic := none,
        questions_asked := s.questions_asked + 1,
        needs_followup := false,
        topic_followup_counts := fun t =>
          if t = none then s.topic_followup_counts none + 1
          else s.topic_followup_counts t,
        messages := s.messages ++ [⟨str "assistant",
          pyStrip (g (followupSystemPrompt none)
            (followupUserPrompt (s.topic_followup_counts none)
              (str "First question on this topic"))),
          TopicTag.pynone⟩] }) := by
  constructor
  · intro session history1 te st
    refine ⟨rfl, rfl, fun m hm => ?_⟩
    obtain ⟨a, -, rfl⟩ := List.mem_map.mp hm
    rfl
  · intro g s hnf hct hcount htags
    have hctx := topicScopedContext_absent s.messages htags
    refine ⟨hctx, ?_⟩
    simp only [generateQuestion, hnf, hct, hctx, llmOf]
    rw [if_pos ⟨trivial, hcount⟩]
    rfl

/-- A snapshot-shaped state with `needs_followup` forced on, for C9. -/
def c9State : InterviewState :=
  { blankState with
    needs_followup := true,
    messages := [⟨str "user", str "an earlier answer", TopicTag.absent⟩] }

/-- Witness for C9 at a concrete None-topic state. -/
theorem c9_none_topic_followup_witness :
    topicScopedContext c9State.messages none = str "First question on this topic" :=
  (c9_none_topic_followup.2 (fun _ _ => str "Anything else?") c9State
    rfl rfl (by decide) (by decide)).1

/-- An oracle whose every call fails, modelling a model-call failure. -/
def failLLM : LLM := fun _ _ => .error (str "model call failed")

/-- An uploaded-but-unstarted session, for C4. -/
def c4Session : SessionData := { baseSession with start_time := none }

/-- C4 (counterexample): a model-call failure during StartInterview leaves the
session's `start_time` already assigned, and during SubmitAnswer leaves the
candidate's answer already appended — the stored session does change. -/
theorem c4_unmodified_counterexample :
    (start_interview failLLM 5 0 0 c4Session).2 =
      .error (str "Failed to start interview: " ++ str "model call failed") ∧
    (start_interview failLLM 5 0 0 c4Session).1.start_time ≠ c4Session.start_time ∧
    (submit_answer failLLM 5 5 baseSession (str "my answer")).2 =
      .error (str "Failed to process answer: " ++ str "model call failed") ∧
    (submit_answer failLLM 5 5 baseSession (str "my answer")).1.conversation_history ≠
      baseSession.conversation_history := by
  exact ⟨rfl, by decide, rfl, by decide⟩

/-- C4 (amended): a model-call failure propagates as a terminal error with no
retry, and nothing computed by the graph is committed; but the mutations made
before the call do persist: StartInterview has already set `start_time`, and
SubmitAnswer has already appended the candidate's answer.  Input-validation
rejections commit nothing. -/
theorem c4_failure_semantics (llm : LLM) (nowDt nowT nowG : ℤ) (session : SessionData)
    (answer : Str) :
    (session.start_time ≠ none →
      (start_interview llm nowDt nowT nowG session).1 = session) ∧
    (session.start_time = none →
      (submit_answer llm nowDt nowG session answer).1 = session) ∧
    (session.is_concluded = true →
      (submit_answer llm nowDt nowG session answer).1 = session) ∧
    (∀ e, session.start_time = none →
      graphInvoke llm nowG (initialState session nowT) = .error e →
      start_interview llm nowDt nowT nowG session =
        ({ session with start_time := some nowDt },
         .error (str "Failed to start interview: " ++ e))) ∧
    (∀ e st, session.start_time = some st → session.is_concluded = false →
      graphInvoke llm nowG (submitState session
        (session.conversation_history ++ [{ role := str "user", content := answer }])
        (nowDt - st) st) = .error e →
      submit_answer llm nowDt nowG session answer =
        ({ session with conversation_history :=
            session.conversation_history ++ [{ role := str "user", content := answer }] },
         .error (str "Failed to process answer: " ++ e))) := by
  refine ⟨?_, ?_, ?_, ?_, ?_⟩
  · intro h
    simp [start_interview, if_pos h]
  · intro h
    simp [submit_answer, h]
  · intro h
    cases hst : session.start_time with
    | none => simp [submit_answer, hst]
    | some st => simp [submit_answer, hst, if_pos h]
  · intro e h0 hg
    have h0' : ¬ (session.start_time ≠ none) := fun hne => hne h0
    simp [start_interview, if_neg h0', hg]
  · intro e st hst hc hg
    have hc' : ¬ (session.is_concluded = true) := by rw [hc]; simp
    simp [submit_answer, hst, if_neg hc', hg]

/-- Witness for C4's amended theorem: a failing StartInterview commits only
`start_time`. -/
theorem c4_failure_semantics_witness :
    start_interview failLLM 5 0 0 c4Session =
      ({ c4Session with start_time := some 5 },
       .error (str "Failed to start interview: " ++ str "model call failed")) :=
  (c4_failure_semantics failLLM 5 0 0 c4Session []).2.2.2.1
    (str "model call failed") rfl rfl

end XQuizit
